import Mathlib

/-!
Verification of the buzzline-03 streaming pipeline:
a JSON producer (`json_producer_Adeyemi.py`) and a consumer
(`csv_consumer_Adeyemi.py`) that keeps a rolling window of temperature
readings and reports the window's range when it is at capacity.

The embedding is shallow: the parsed JSON values that `json.loads` can
return are the inductive `Json`; a raw Kafka payload is a `Payload`
(either undecodable, or the parsed value); `process_message` becomes a
pure function threading the rolling-window state (a `List Json`, since
the Python deque holds the temperature field as-is, whatever its type);
Python exceptions become an `Except` layer that the function's
`try/except` discharges.  JSON numbers are modelled as rationals: every
numeric literal exercised here is exactly representable.
-/

namespace Buzzline

/-- Parsed JSON values as produced by Python's `json.loads`: null, bool,
number (int or float, modelled as an exact rational), string, array, or
object.  An `obj` carries the parsed dict's items; `json.loads` already
collapses duplicate keys, so the key list is treated as a map. -/
inductive Json where
  | null : Json
  | bool (b : Bool) : Json
  | num (q : ℚ) : Json
  | str (s : String) : Json
  | arr (xs : List Json) : Json
  | obj (fields : List (String × Json)) : Json

/-- Python exceptions that the consumer's processing code can raise. -/
inductive PyExc where
  | jsonDecodeError : PyExc
  | attributeError : PyExc
  | typeError : PyExc
  | valueError : PyExc
  | keyboardInterrupt : PyExc
  | otherError : PyExc
deriving DecidableEq

/-- A raw payload handed to `process_message`, abstracted by the outcome
of `json.loads` on it: either not decodable as JSON (the parser raises
`json.JSONDecodeError`), or decodable into a parsed `Json` value. -/
inductive Payload where
  | malformed (raw : String) : Payload
  | decoded (value : Json) : Payload

/-- Is this value Python `None`?  `dict.get` returns `None` both for an
absent key and for a key stored as JSON `null`. -/
def Json.isNull : Json → Bool
  | .null => true
  | _ => false

/-- `data.get(k)`: look the key up in the parsed dict, `None` when absent. -/
def dictGet (fields : List (String × Json)) (k : String) : Json :=
  (fields.lookup k).getD .null

/-- `deque.append` on a deque with `maxlen = W`: append on the right; when
the bound is exceeded the single oldest element is discarded on the left. -/
def dequeAppend (W : ℕ) (w : List Json) (v : Json) : List Json :=
  let w' := w ++ [v]
  if W < w'.length then w'.tail else w'

/-- Python numeric coercion for comparisons and arithmetic: numbers are
themselves, `True`/`False` are the integers 1/0 (bool is an int subclass);
everything else is non-numeric. -/
def pyNumVal : Json → Option ℚ
  | .num q => some q
  | .bool b => some (if b then 1 else 0)
  | _ => none

/-- Python `a > b` on JSON-decoded values: numeric pairs compare by value,
string pairs lexicographically, any other pair raises `TypeError`
(list/list comparison also raises here, a sound over-approximation the
claims never exercise with two lists). -/
def pyGt (a b : Json) : Except PyExc Bool :=
  match pyNumVal a, pyNumVal b with
  | some x, some y => .ok (decide (y < x))
  | _, _ =>
    match a, b with
    | .str s, .str t => .ok (decide (t < s))
    | _, _ => .error .typeError

/-- Python `a < b`, same comparability rules as `pyGt`. -/
def pyLt (a b : Json) : Except PyExc Bool :=
  match pyNumVal a, pyNumVal b with
  | some x, some y => .ok (decide (x < y))
  | _, _ =>
    match a, b with
    | .str s, .str t => .ok (decide (s < t))
    | _, _ => .error .typeError

/-- `max(iterable)` body: keep the current best, replacing it when a later
element compares strictly greater. -/
def pyMaxAux : Json → List Json → Except PyExc Json
  | acc, [] => .ok acc
  | acc, x :: xs =>
    match pyGt x acc with
    | .error e => .error e
    | .ok b => pyMaxAux (if b then x else acc) xs

/-- Python `max(iterable)`: `ValueError` on an empty iterable. -/
def pyMax : List Json → Except PyExc Json
  | [] => .error .valueError
  | x :: xs => pyMaxAux x xs

/-- `min(iterable)` body. -/
def pyMinAux : Json → List Json → Except PyExc Json
  | acc, [] => .ok acc
  | acc, x :: xs =>
    match pyLt x acc with
    | .error e => .error e
    | .ok b => pyMinAux (if b then x else acc) xs

/-- Python `min(iterable)`: `ValueError` on an empty iterable. -/
def pyMin : List Json → Except PyExc Json
  | [] => .error .valueError
  | x :: xs => pyMinAux x xs

/-- Python `a - b`: defined for numeric values (`TypeError` otherwise). -/
def pySub (a b : Json) : Except PyExc Json :=
  match pyNumVal a, pyNumVal b with
  | some x, some y => .ok (.num (x - y))
  | _, _ => .error .typeError

/-- `max(rolling_window) - min(rolling_window)`: the derived range metric
over the window's current contents. -/
def pyRange (w : List Json) : Except PyExc Json :=
  match pyMax w with
  | .error e => .error e
  | .ok hi =>
    match pyMin w with
    | .error e => .error e
    | .ok lo => pySub hi lo

/-- How `process_message` classified one message. -/
inductive ProcResult where
  | malformedPayload : ProcResult
  | missingField : ProcResult
  | ok (range : Option Json) : ProcResult
  | caughtError : ProcResult

/-- The body of `process_message` (the code inside its `try`), threading
the rolling window.  An exception carries the window as it stands at the
raise point, because an already-performed `deque.append` persists.
Mirrors the source: `json.loads`, the four `data.get` calls (an
`AttributeError` when the parsed value is not a dict), the
`None in (...)` required-field check, `rolling_window.append(temperature)`,
and the range computation guarded by `len(rolling_window) == window_size`. -/
def processBody (p : Payload) (w : List Json) (W : ℕ) :
    Except (PyExc × List Json) (List Json × ProcResult) :=
  match p with
  | .malformed _ => .error (.jsonDecodeError, w)
  | .decoded j =>
    match j with
    | .obj fields =>
      let timestamp := dictGet fields "timestamp"
      let temperature := dictGet fields "temperature"
      let humidity := dictGet fields "humidity"
      let pressure := dictGet fields "pressure"
      if timestamp.isNull || temperature.isNull || humidity.isNull || pressure.isNull then
        .ok (w, .missingField)
      else
        let w' := dequeAppend W w temperature
        if w'.length = W then
          match pyRange w' with
          | .ok r => .ok (w', .ok (some r))
          | .error e => .error (e, w')
        else
          .ok (w', .ok none)
    | _ => .error (.attributeError, w)

/-- `process_message`: the body wrapped in its handlers —
`except json.JSONDecodeError` logs and returns, and the catch-all
`except Exception` logs and returns.  Every exception the body can raise
is an `Exception` subclass, so nothing propagates to the caller. -/
def processMessage (p : Payload) (w : List Json) (W : ℕ) :
    List Json × ProcResult :=
  match processBody p w W with
  | .ok r => r
  | .error (.jsonDecodeError, w') => (w', .malformedPayload)
  | .error (_, w') => (w', .caughtError)

/-- The consumer's polling loop over a finite batch of delivered payloads:
process each in arrival order, collecting the per-message classifications. -/
def runMessages (msgs : List Payload) (w : List Json) (W : ℕ) :
    List Json × List ProcResult :=
  match msgs with
  | [] => (w, [])
  | p :: rest =>
    let step := processMessage p w W
    let tail := runMessages rest step.1 W
    (tail.1, step.2 :: tail.2)

/-- Pushing a sequence of bare values into a fresh `deque(maxlen=W)`. -/
def pushAll (W : ℕ) (vs : List Json) : List Json :=
  vs.foldl (fun w v => dequeAppend W w v) []

/-- States of the consumer's main-loop state machine. -/
inductive LoopState where
  | starting : LoopState
  | polling : LoopState
  | draining : LoopState
  | stopped : LoopState
deriving DecidableEq

/-- How the consumer's polling loop ends: the source runs out of messages,
the operator interrupts mid-poll (`KeyboardInterrupt`), or the external
source raises some other exception. -/
inductive EndEvent where
  | endOfStream : EndEvent
  | keyboardInterrupt : EndEvent
  | sourceError : EndEvent
deriving DecidableEq

/-- Which Python exception, if any, escapes the `for` loop of the
consumer's `main` when the stream ends with the given event. -/
def loopExc : EndEvent → Option PyExc
  | .endOfStream => none
  | .keyboardInterrupt => some .keyboardInterrupt
  | .sourceError => some .otherError

/-- Is this exception an `Exception` subclass?  `KeyboardInterrupt` is
not: it derives from `BaseException` directly, so a bare
`except Exception` does not catch it. -/
def isExceptionSubclass : PyExc → Bool
  | .keyboardInterrupt => false
  | _ => true

/-- Outcome of one run of the consumer's `main` over a finite stream. -/
structure ConsumerRun where
  window : List Json
  results : List ProcResult
  closeCalls : ℕ
  uncaught : Option PyExc
  finalState : LoopState

/-- The consumer's `main` after the Kafka consumer is created: iterate the
source, processing each delivered payload; the loop ends with `endE`;
`except KeyboardInterrupt` catches an interrupt, `except Exception`
catches source errors; the `finally` block closes the consumer exactly
once on every one of these paths, and `main` then returns (state
machine at `stopped`). -/
def consumerMain (msgs : List Payload) (endE : EndEvent) (W : ℕ) : ConsumerRun :=
  let processed := runMessages msgs [] W
  let escaped :=
    match loopExc endE with
    | none => none
    | some e =>
      if e = .keyboardInterrupt then none
      else if isExceptionSubclass e then none
      else some e
  { window := processed.1
    results := processed.2
    closeCalls := 1
    uncaught := escaped
    finalState := .stopped }

/-! ## Producer (`json_producer_Adeyemi.py`) -/

/-- One message yielded by `generate_messages`. -/
structure RideMessage where
  ride_id : String
  service : String
  status : String
  duration : ℕ
  pickup_location : String
  dropoff_location : String
deriving DecidableEq

/-- The message `generate_messages` builds when its `ride_id_counter`
holds `c`. -/
def generate_message (c : ℕ) : RideMessage :=
  { ride_id := toString c
    service := "Uber"
    status := if c % 2 = 0 then "Completed" else "In Progress"
    duration := c * 10
    pickup_location := "Downtown"
    dropoff_location := if c % 2 = 0 then "Airport" else "Hotel" }

/-- One resumption of the generator with counter `c`: yield the message
built from `c`, then `ride_id_counter += 1`. -/
def generatorStep (c : ℕ) : RideMessage × ℕ :=
  (generate_message c, c + 1)

/-- The counter after `n` calls of the generator; `ride_id_counter`
starts at 1. -/
def counterAfter : ℕ → ℕ
  | 0 => 1
  | n + 1 => (generatorStep (counterAfter n)).2

/-- The generator's own `time.sleep(2)` between consecutive yields, in
seconds: a fixed constant. -/
def generatorSleepSeconds : ℕ := 2

/-- Seconds the producer's send loop in `main` sleeps between consecutive
`generate_messages` values: the loop body only publishes and logs. -/
def producerLoopSleepSeconds : ℕ := 0

/-- `get_message_interval`: `int(os.getenv("TRANSPORT_INTERVAL_SECONDS", 2))`,
with the environment variable modelled already parsed. -/
def get_message_interval (env : Option ℤ) : ℤ :=
  env.getD 2

/-- The delay imposed between consecutive message emissions of the
producer: the generator's internal sleep plus any sleep by the caller.
The configured interval plays no part in it. -/
def interEmissionDelaySeconds (_env : Option ℤ) : ℤ :=
  (generatorSleepSeconds : ℤ) + (producerLoopSleepSeconds : ℤ)

/-- The producer's `main` up to the start of message production:
`create_kafka_producer` returning `None` hits `sys.exit(3)`; otherwise a
`create_kafka_topic` failure is caught and hits `sys.exit(1)`; otherwise
production begins (no exit yet, `none`). -/
def producerStartupExit (producerOk : Bool) (topicOk : Bool) : Option ℕ :=
  if !producerOk then some 3
  else if !topicOk then some 1
  else none

/-- A well-formed weather record as in the consumer's docstring, carrying
the given temperature: all four required fields present and non-null. -/
def tempRecord (t : ℚ) : Payload :=
  .decoded (.obj [("timestamp", .str "2023-10-01T12:00:00Z"), ("temperature", .num t),
    ("humidity", .num 60), ("pressure", .num (10132 / 10))])

/-! ## Rolling-window lemmas -/

theorem dequeAppend_drop (W : ℕ) (vs : List Json) (v : Json) :
    dequeAppend W (vs.drop (vs.length - W)) v = (vs ++ [v]).drop (vs.length + 1 - W) := by
  unfold dequeAppend
  by_cases hWn : W ≤ vs.length
  · have hlen : (vs.drop (vs.length - W) ++ [v]).length = W + 1 := by
      simp [List.length_drop]
      omega
    rw [if_pos (by omega)]
    have h1 : (vs.drop (vs.length - W) ++ [v]).tail
        = (vs.drop (vs.length - W) ++ [v]).drop 1 := (List.drop_one _).symm
    rw [h1]
    by_cases hW0 : W = 0
    · subst hW0
      simp
    · have hdlen : 1 ≤ (vs.drop (vs.length - W)).length := by
        simp [List.length_drop]
        omega
      rw [List.drop_append_of_le_length hdlen, List.drop_drop]
      have hidx : vs.length + 1 - W = vs.length - W + 1 := by omega
      rw [hidx, List.drop_append_of_le_length (by omega : vs.length - W + 1 ≤ vs.length)]
  · have h0 : vs.length - W = 0 := by omega
    rw [h0, List.drop_zero, if_neg (by simp; omega)]
    have h1 : vs.length + 1 - W = 0 := by omega
    rw [h1, List.drop_zero]

theorem pushAll_eq_drop (W : ℕ) (vs : List Json) :
    pushAll W vs = vs.drop (vs.length - W) := by
  induction vs using List.reverseRecOn with
  | nil => simp [pushAll]
  | append_singleton vs v ih =>
    unfold pushAll at ih ⊢
    rw [List.foldl_append, List.foldl_cons, List.foldl_nil, ih, dequeAppend_drop]
    simp

/-! ## Processing lemmas -/

theorem processBody_ok_some (p : Payload) (w : List Json) (W : ℕ) (w' : List Json)
    (x : Json) (h : processBody p w W = .ok (w', .ok (some x))) :
    w'.length = W ∧ pyRange w' = .ok x := by
  cases p with
  | malformed raw => simp [processBody] at h
  | decoded j =>
    cases j with
    | null => simp [processBody] at h
    | bool b => simp [processBody] at h
    | num q => simp [processBody] at h
    | str s => simp [processBody] at h
    | arr xs => simp [processBody] at h
    | obj fields =>
      simp only [processBody] at h
      split at h
      · simp at h
      · split at h
        · rename_i hlen
          split at h
          · rename_i r hr
            simp only [Except.ok.injEq, Prod.mk.injEq] at h
            obtain ⟨hw, hres⟩ := h
            have hrx : r = x := by
              cases hres
              rfl
            subst hw
            subst hrx
            exact ⟨hlen, hr⟩
          · simp at h
        · simp at h

theorem processMessage_ok_some (p : Payload) (w : List Json) (W : ℕ) (w' : List Json)
    (x : Json) (h : processMessage p w W = (w', .ok (some x))) :
    w'.length = W ∧ pyRange w' = .ok x := by
  unfold processMessage at h
  cases hb : processBody p w W with
  | ok r =>
    rw [hb] at h
    subst h
    exact processBody_ok_some p w W _ x hb
  | error ew =>
    obtain ⟨e, w''⟩ := ew
    rw [hb] at h
    cases e <;> simp at h

theorem step20 : processMessage (tempRecord 20) [] 5 = ([Json.num 20], .ok none) := by
  simp [processMessage, processBody, tempRecord, dictGet, Json.isNull, dequeAppend,
    List.lookup]

theorem step21 : processMessage (tempRecord 21) [Json.num 20] 5
    = ([Json.num 20, Json.num 21], .ok none) := by
  simp [processMessage, processBody, tempRecord, dictGet, Json.isNull, dequeAppend,
    List.lookup]

theorem step19 : processMessage (tempRecord 19) [Json.num 20, Json.num 21] 5
    = ([Json.num 20, Json.num 21, Json.num 19], .ok none) := by
  simp [processMessage, processBody, tempRecord, dictGet, Json.isNull, dequeAppend,
    List.lookup]

theorem step22 : processMessage (tempRecord 22) [Json.num 20, Json.num 21, Json.num 19] 5
    = ([Json.num 20, Json.num 21, Json.num 19, Json.num 22], .ok none) := by
  simp [processMessage, processBody, tempRecord, dictGet, Json.isNull, dequeAppend,
    List.lookup]

theorem step23 : processMessage (tempRecord 23)
    [Json.num 20, Json.num 21, Json.num 19, Json.num 22] 5
    = ([Json.num 20, Json.num 21, Json.num 19, Json.num 22, Json.num 23],
       .ok (some (Json.num 4))) := by
  simp [processMessage, processBody, tempRecord, dictGet, Json.isNull, dequeAppend,
    List.lookup]
  norm_num [pyRange, pyMax, pyMin, pyMaxAux, pyMinAux, pyGt, pyLt, pySub, pyNumVal]

theorem step18 : processMessage (tempRecord 18)
    [Json.num 20, Json.num 21, Json.num 19, Json.num 22, Json.num 23] 5
    = ([Json.num 21, Json.num 19, Json.num 22, Json.num 23, Json.num 18],
       .ok (some (Json.num 5))) := by
  simp [processMessage, processBody, tempRecord, dictGet, Json.isNull, dequeAppend,
    List.lookup]
  norm_num [pyRange, pyMax, pyMin, pyMaxAux, pyMinAux, pyGt, pyLt, pySub, pyNumVal]

theorem scenario5_run :
    runMessages [tempRecord 20, tempRecord 21, tempRecord 19, tempRecord 22, tempRecord 23]
      [] 5
    = ([Json.num 20, Json.num 21, Json.num 19, Json.num 22, Json.num 23],
       [.ok none, .ok none, .ok none, .ok none, .ok (some (Json.num 4))]) := by
  simp [runMessages, step20, step21, step19, step22, step23]

theorem range253 : pyRange [Json.num 2, Json.num 5, Json.num 3] = .ok (Json.num 3) := by
  norm_num [pyRange, pyMax, pyMin, pyMaxAux, pyMinAux, pyGt, pyLt, pySub, pyNumVal]

/-! ## Claim theorems -/

/-- Claim C2: for every window capacity `W ≥ 1` and every sequence of `N`
pushed values with `N > W`, the rolling window afterwards holds exactly the
last `W` values in arrival order — the suffix `v_{N-W+1}..v_N` — with
strict FIFO eviction and no reordering. -/
theorem c2_fifo_eviction (W : ℕ) (vs : List Json) (hW : 1 ≤ W)
    (hN : W < vs.length) : pushAll W vs = vs.drop (vs.length - W) :=
  pushAll_eq_drop W vs

/-- Witness for C2 at `W = 2`, pushes `[5, 7, 6]`: the window ends as
`[7, 6]`, the last two pushes in arrival order. -/
theorem c2_fifo_eviction_witness :
    pushAll 2 [Json.num 5, Json.num 7, Json.num 6] = [Json.num 7, Json.num 6] := by
  have h := c2_fifo_eviction 2 [Json.num 5, Json.num 7, Json.num 6]
    (by norm_num) (by norm_num)
  simpa using h

/-- Counterexample to claim C3 as stated: with `W = 2` and pushes
`[5, 7, 5]`, after the `(W+1)`-th push the window still contains the value
`5` pushed first, because an equal value was pushed again later — the
deque stores values, not identities. -/
theorem c3_counterexample :
    Json.num 5 ∈ pushAll 2 [Json.num 5, Json.num 7, Json.num 5] := by
  have h : pushAll 2 [Json.num 5, Json.num 7, Json.num 5]
      = [Json.num 7, Json.num 5] := by
    simp [pushAll, dequeAppend]
  rw [h]
  exact List.mem_cons_of_mem _ (List.mem_cons_self _ _)

/-- Claim C3 amended: for every sequence of pushes the window's length
never exceeds the capacity `W`; after the `(W+1)`-th push the window
consists exactly of pushes `2..W+1`, so the first push is evicted as an
element — and its value is absent whenever it differs from every later
retained push. -/
theorem c3_window_bound :
    (∀ (W : ℕ) (vs : List Json) (n : ℕ), (pushAll W (vs.take n)).length ≤ W)
    ∧ (∀ (W : ℕ) (v0 : Json) (rest : List Json), rest.length = W →
        pushAll W (v0 :: rest) = rest)
    ∧ (∀ (W : ℕ) (v0 : Json) (rest : List Json), rest.length = W →
        v0 ∉ rest → v0 ∉ pushAll W (v0 :: rest)) := by
  refine ⟨fun W vs n => ?_, fun W v0 rest h => ?_, fun W v0 rest h hm => ?_⟩
  · rw [pushAll_eq_drop, List.length_drop]
    omega
  · rw [pushAll_eq_drop]
    simp only [List.length_cons, h]
    simp
  · rw [pushAll_eq_drop]
    simp only [List.length_cons, h]
    simpa using hm

/-- Witness for C3 (amended) at `W = 2`, pushes `[1, 2, 3]`: the window is
`[2, 3]`, of length at most 2, and no longer contains the first push `1`. -/
theorem c3_window_bound_witness :
    pushAll 2 [Json.num 1, Json.num 2, Json.num 3] = [Json.num 2, Json.num 3]
    ∧ Json.num 1 ∉ pushAll 2 [Json.num 1, Json.num 2, Json.num 3] := by
  refine ⟨c3_window_bound.2.1 2 (Json.num 1) [Json.num 2, Json.num 3] rfl, ?_⟩
  exact c3_window_bound.2.2 2 (Json.num 1) [Json.num 2, Json.num 3] rfl (by simp)

/-- Claim C1: the derived metric is reported only when the window length
equals `W`, and then equals `max(window) − min(window)`; with `W = 5`,
feeding temperatures `[20, 21, 19, 22, 23]` via valid records makes the
5th record report a range of 4, and a 6th valid record with value 18
evicts 20, leaving window `[21, 19, 22, 23, 18]` and range 5; with window
contents `[2, 5, 3]` and `W = 3`, the range is 3. -/
theorem c1_derived_metric :
    (∀ (p : Payload) (w : List Json) (W : ℕ) (w' : List Json) (x : Json),
        processMessage p w W = (w', .ok (some x)) →
        w'.length = W ∧ pyRange w' = .ok x)
    ∧ runMessages
        [tempRecord 20, tempRecord 21, tempRecord 19, tempRecord 22, tempRecord 23] [] 5
      = ([Json.num 20, Json.num 21, Json.num 19, Json.num 22, Json.num 23],
         [.ok none, .ok none, .ok none, .ok none, .ok (some (Json.num 4))])
    ∧ processMessage (tempRecord 18)
        [Json.num 20, Json.num 21, Json.num 19, Json.num 22, Json.num 23] 5
      = ([Json.num 21, Json.num 19, Json.num 22, Json.num 23, Json.num 18],
         .ok (some (Json.num 5)))
    ∧ pyRange [Json.num 2, Json.num 5, Json.num 3] = .ok (Json.num 3) :=
  ⟨processMessage_ok_some, scenario5_run, step18, range253⟩

/-- Witness for C1: the sixth record of the scenario satisfies the general
hypothesis, and the conclusion evaluates on it — the new window has length
5 and range 5. -/
theorem c1_derived_metric_witness :
    [Json.num 21, Json.num 19, Json.num 22, Json.num 23, Json.num 18].length = 5
    ∧ pyRange [Json.num 21, Json.num 19, Json.num 22, Json.num 23, Json.num 18]
      = .ok (Json.num 5) :=
  c1_derived_metric.1 (tempRecord 18)
    [Json.num 20, Json.num 21, Json.num 19, Json.num 22, Json.num 23] 5
    [Json.num 21, Json.num 19, Json.num 22, Json.num 23, Json.num 18]
    (Json.num 5) step18

/-- Claim C4: a structurally valid JSON object missing any of the required
fields — timestamp, temperature, humidity, pressure — is classified as a
missing-field rejection and discarded: the window is unchanged and the
loop continues with the remaining messages. -/
theorem c4_missing_field (fields : List (String × Json)) (w : List Json) (W : ℕ)
    (h : fields.lookup "timestamp" = none ∨ fields.lookup "temperature" = none
      ∨ fields.lookup "humidity" = none ∨ fields.lookup "pressure" = none) :
    processMessage (.decoded (.obj fields)) w W = (w, .missingField)
    ∧ ∀ rest : List Payload,
        runMessages (Payload.decoded (.obj fields) :: rest) w W
        = ((runMessages rest w W).1, .missingField :: (runMessages rest w W).2) := by
  have hmsg : processMessage (.decoded (.obj fields)) w W = (w, .missingField) := by
    rcases h with h | h | h | h <;>
      simp [processMessage, processBody, dictGet, h, Json.isNull]
  exact ⟨hmsg, fun rest => by simp [runMessages, hmsg]⟩

/-- Witness for C4: a record with timestamp, humidity and pressure but no
"temperature" key is rejected as missing-field, leaving the window `[7]`
untouched. -/
theorem c4_missing_field_witness :
    processMessage
      (.decoded (.obj [("timestamp", .str "t"), ("humidity", .num 60),
        ("pressure", .num 1013)])) [Json.num 7] 5
    = ([Json.num 7], .missingField) :=
  (c4_missing_field
    [("timestamp", .str "t"), ("humidity", .num 60), ("pressure", .num 1013)]
    [Json.num 7] 5 (Or.inr (Or.inl (by simp)))).1

/-- Claim C5: a payload that is not decodable as JSON leaves the rolling
window unchanged and raises nothing past the processing step — the body's
`JSONDecodeError` is caught locally, the record is discarded, and the loop
continues with the remaining messages. -/
theorem c5_malformed_isolated :
    ∀ (raw : String) (w : List Json) (W : ℕ),
      processMessage (.malformed raw) w W = (w, .malformedPayload)
      ∧ processBody (.malformed raw) w W = .error (.jsonDecodeError, w)
      ∧ ∀ rest : List Payload,
          runMessages (Payload.malformed raw :: rest) w W
          = ((runMessages rest w W).1, .malformedPayload :: (runMessages rest w W).2) := by
  intro raw w W
  refine ⟨rfl, rfl, fun rest => ?_⟩
  simp [runMessages, processMessage, processBody]

/-- Claim C6: on every exit path of the consumer's main loop — end of
stream, operator interrupt mid-poll, or an exception from the external
source — the subscribe handle's close is invoked exactly once, nothing
escapes `main`, and the loop ends in the STOPPED state. -/
theorem c6_close_once :
    ∀ (msgs : List Payload) (e : EndEvent) (W : ℕ),
      (consumerMain msgs e W).closeCalls = 1
      ∧ (consumerMain msgs e W).uncaught = none
      ∧ (consumerMain msgs e W).finalState = .stopped := by
  intro msgs e W
  cases e <;> simp [consumerMain, loopExc, isExceptionSubclass]

/-- Claim C7: each generator call with counter `c` yields the message
derived from `c` — status and destination selected by `c mod 2`, duration
`c * 10` — and advances the counter by exactly 1, so after `n` calls the
counter, started at 1, holds `n + 1`. -/
theorem c7_generator :
    ∀ c n : ℕ,
      (generatorStep c).2 = c + 1
      ∧ (generatorStep c).1.status = (if c % 2 = 0 then "Completed" else "In Progress")
      ∧ (generatorStep c).1.dropoff_location = (if c % 2 = 0 then "Airport" else "Hotel")
      ∧ (generatorStep c).1.duration = c * 10
      ∧ counterAfter n = n + 1 := by
  intro c n
  refine ⟨rfl, rfl, rfl, rfl, ?_⟩
  induction n with
  | zero => rfl
  | succ m ih => simp [counterAfter, generatorStep, ih]

/-- Claim C8: a failed producer construction exits the process with status
3, a failed topic provisioning with status 1; the two codes are distinct
and non-zero. -/
theorem c8_exit_codes :
    ∀ t : Bool,
      producerStartupExit false t = some 3
      ∧ producerStartupExit true false = some 1
      ∧ (3 : ℕ) ≠ 1 ∧ (3 : ℕ) ≠ 0 ∧ (1 : ℕ) ≠ 0 :=
  fun _t => ⟨rfl, rfl, by decide, by decide, by decide⟩

/-- Counterexample to claim C9 as stated: with the message interval
configured to 5 seconds, the delay imposed between consecutive emissions
is still 2 seconds — the generator's own hardcoded `sleep(2)` — not the
configured interval. -/
theorem c9_counterexample :
    get_message_interval (some 5) = 5
    ∧ interEmissionDelaySeconds (some 5) ≠ get_message_interval (some 5) := by
  refine ⟨rfl, ?_⟩
  decide

/-- Claim C9 amended: the message interval is resolved at startup from the
environment with default 2 but is never used; the send loop imposes no
delay of its own, and the generator itself sleeps a fixed 2 seconds
between yields, so the inter-emission delay is always 2 seconds and
matches the configured interval exactly when that interval is 2 (as with
the default). -/
theorem c9_interval_unused :
    ∀ env : Option ℤ,
      get_message_interval env = env.getD 2
      ∧ interEmissionDelaySeconds env = 2
      ∧ producerLoopSleepSeconds = 0
      ∧ (interEmissionDelaySeconds env = get_message_interval env ↔ env.getD 2 = 2) := by
  intro env
  have h2 : interEmissionDelaySeconds env = 2 := by
    norm_num [interEmissionDelaySeconds, generatorSleepSeconds, producerLoopSleepSeconds]
  refine ⟨rfl, h2, rfl, ?_⟩
  rw [h2]
  unfold get_message_interval
  exact eq_comm

/-- Claim C10: `process_message` is total at its boundary — for every
payload and window state the call returns normally: the body either
returns, or raises an exception that the handlers absorb into a
malformed-payload or caught-error outcome; concretely, a record whose
temperature is the string "hot" is pushed into the window, the range
computation then raises `TypeError`, and the catch-all absorbs it while
the window keeps the string. -/
theorem c10_process_total :
    (∀ (p : Payload) (w : List Json) (W : ℕ),
        ∃ (w' : List Json) (r : ProcResult),
          processMessage p w W = (w', r)
          ∧ (processBody p w W = .ok (w', r)
            ∨ ∃ e : PyExc, processBody p w W = .error (e, w')
                ∧ (r = .malformedPayload ∨ r = .caughtError)))
    ∧ processMessage
        (.decoded (.obj [("timestamp", .str "t"), ("temperature", .str "hot"),
          ("humidity", .num 60), ("pressure", .num 1013)])) [Json.num 20] 2
      = ([Json.num 20, Json.str "hot"], .caughtError) := by
  constructor
  · intro p w W
    cases hb : processBody p w W with
    | ok r =>
      exact ⟨r.1, r.2, by simp [processMessage, hb], Or.inl (by simp)⟩
    | error ew =>
      obtain ⟨e, w''⟩ := ew
      cases e with
      | jsonDecodeError =>
        exact ⟨w'', .malformedPayload, by simp [processMessage, hb],
          Or.inr ⟨.jsonDecodeError, rfl, Or.inl rfl⟩⟩
      | attributeError =>
        exact ⟨w'', .caughtError, by simp [processMessage, hb],
          Or.inr ⟨.attributeError, rfl, Or.inr rfl⟩⟩
      | typeError =>
        exact ⟨w'', .caughtError, by simp [processMessage, hb],
          Or.inr ⟨.typeError, rfl, Or.inr rfl⟩⟩
      | valueError =>
        exact ⟨w'', .caughtError, by simp [processMessage, hb],
          Or.inr ⟨.valueError, rfl, Or.inr rfl⟩⟩
      | keyboardInterrupt =>
        exact ⟨w'', .caughtError, by simp [processMessage, hb],
          Or.inr ⟨.keyboardInterrupt, rfl, Or.inr rfl⟩⟩
      | otherError =>
        exact ⟨w'', .caughtError, by simp [processMessage, hb],
          Or.inr ⟨.otherError, rfl, Or.inr rfl⟩⟩
  · simp [processMessage, processBody, dictGet, Json.isNull, dequeAppend,
      pyRange, pyMax, pyMin, pyMaxAux, pyMinAux, pyGt, pyLt, pySub, pyNumVal,
      List.lookup]

end Buzzline
